import Mathlib

/-!
Verification development for the fluture-node HTTP layer (index.js).

The JavaScript source is shallowly embedded: plain objects become
structures, `undefined`-able fields become `Option`, JS falsy tests on
numbers/strings are spelled out (0 and "" are falsy), function references
(the dns `lookup` default, Task values used as request bodies) are
modelled by numeric identifiers so that JS reference equality (`===`)
becomes identifier equality, and Futures that settle with either an error
or a value become `Except`.  Network activity performed by `sendRequest`
is abstracted by an oracle `net : Request → Except String Message`
together with an explicit count of issued requests.
-/

namespace FlutureNode

/-- An http agent, as far as `cleanRequestOptions` reads it: only its
`defaultPort` property is consulted (`options.agent.defaultPort`). -/
structure Agent where
  defaultPort : Option Nat
deriving DecidableEq, Repr

/-- A JS headers object: an ordered map from header name to value. -/
abbrev Headers := List (String × String)

/-- Identifier of the module-level dns `lookup` function imported by
index.js (`import {lookup} from 'dns'`); function references are modelled
by numeric identifiers. -/
def dnsLookupId : Nat := 0

/-- A Task (Future) of a readable stream, used as a request body.  JS
compares such values only by reference (`===`), so the reference is
modelled by `id`; `chunks` records the byte chunks the produced stream
would emit, which no function under verification ever reads. -/
structure TaskRef where
  id : Nat
  chunks : List (List Nat)
deriving DecidableEq, Repr

/-- The module-level `emptyStream = streamOf (Buffer.alloc (0))` Task.
It is a single module-level value, hence a single reference id shared by
every use site (`retrieve`, `redirectUsingGetMethod`). -/
def emptyStream : TaskRef := { id := 0, chunks := [[]] }

/-- The request options object, restricted to the fields that the code
under verification reads.  Every field may be absent (`undefined`). -/
structure RequestOptions where
  agent : Option Agent := none
  createConnection : Option Nat := none
  defaultPort : Option Nat := none
  family : Option Nat := none
  headers : Option Headers := none
  insecureHTTPParser : Option Bool := none
  localAddress : Option String := none
  lookup : Option Nat := none
  maxHeaderSize : Option Nat := none
  method : Option String := none
  setHost : Option Bool := none
  socketPath : Option String := none
  timeout : Option Nat := none
deriving DecidableEq, Repr

/-- A Request value: `Request = options => url => body => ({options, url, body})`. -/
structure Request where
  options : RequestOptions
  url : String
  body : TaskRef
deriving DecidableEq, Repr

/-- An IncomingMessage, as far as the code under verification reads it:
status code, status message and (lower-cased) response headers. -/
structure Message where
  statusCode : Nat
  statusMessage : String := ""
  headers : Headers := []
deriving DecidableEq, Repr

/-- A Response value: `Response = request => message => ({request, message})`. -/
structure Response where
  request : Request
  message : Message
deriving DecidableEq, Repr

/-- JS `a || b` on a possibly-undefined number: `0` and `undefined` are falsy. -/
def jsOrNat (a : Option Nat) (b : Option Nat) : Option Nat :=
  match a with
  | some n => if n = 0 then b else some n
  | none => b

/-- JS `a || b` on a possibly-undefined string: `""` and `undefined` are falsy. -/
def jsOrStr (a : Option String) (b : String) : String :=
  match a with
  | some s => if s = "" then b else s
  | none => b

/-- JS `options.agent && options.agent.defaultPort`: `undefined` when the
agent is absent (an object is always truthy when present). -/
def agentDefaultPort (a : Option Agent) : Option Nat :=
  match a with
  | none => none
  | some ag => ag.defaultPort

/-- ASCII upper-casing of one character, modelling the effect of JS
`String.prototype.toUpperCase` on the method names that occur here. -/
def charUpper (c : Char) : Char :=
  if 97 ≤ c.toNat ∧ c.toNat ≤ 122 then Char.ofNat (c.toNat - 32) else c

/-- ASCII lower-casing of one character, modelling the effect of JS
`String.prototype.toLowerCase` on the header names that occur here. -/
def charLower (c : Char) : Char :=
  if 65 ≤ c.toNat ∧ c.toNat ≤ 90 then Char.ofNat (c.toNat + 32) else c

/-- JS `s.toUpperCase ()` (ASCII fragment): upper-case every character. -/
def strUpper (s : String) : String := String.mk (s.data.map charUpper)

/-- JS `s.toLowerCase ()` (ASCII fragment): lower-case every character. -/
def strLower (s : String) : String := String.mk (s.data.map charLower)

/-- The object produced by `cleanRequestOptions`: same thirteen fields,
with the defaulted ones (`headers`, `insecureHTTPParser`, `lookup`,
`maxHeaderSize`, `method`, `setHost`) always present. -/
structure CleanOptions where
  agent : Option Agent
  createConnection : Option Nat
  defaultPort : Option Nat
  family : Option Nat
  headers : Headers
  insecureHTTPParser : Bool
  localAddress : Option String
  lookup : Nat
  maxHeaderSize : Nat
  method : String
  setHost : Bool
  socketPath : Option String
  timeout : Option Nat
deriving DecidableEq, Repr

/-- Embedding of `cleanRequestOptions` (index.js lines 352-371). -/
def cleanRequestOptions (request : Request) : CleanOptions :=
  let options := request.options
  { agent := options.agent
    createConnection := options.createConnection
    defaultPort := jsOrNat options.defaultPort (agentDefaultPort options.agent)
    family := options.family
    headers := options.headers.getD []
    insecureHTTPParser := decide (options.insecureHTTPParser = some true)
    localAddress := options.localAddress
    lookup := options.lookup.getD dnsLookupId
    maxHeaderSize := (jsOrNat options.maxHeaderSize (some 16384)).getD 16384
    method := strUpper (jsOrStr options.method "GET")
    setHost := decide (options.setHost ≠ some false)
    socketPath := options.socketPath
    timeout := options.timeout }

/-- Embedding of `requestsEquivalent` (index.js lines 690-698):
`isDeepStrictEqual` on the cleaned options, `===` on the url strings, and
`===` (reference identity, i.e. id equality) on the body Tasks. -/
def requestsEquivalent (left : Request) (right : Request) : Bool :=
  decide (cleanRequestOptions left = cleanRequestOptions right) &&
  decide (left.url = right.url) &&
  decide (left.body.id = right.body.id)

/-- A parsed absolute URL. -/
structure Url where
  scheme : String
  host : String
  path : String
deriving DecidableEq, Repr

/-- Split a character list at the first occurrence of the given
character: the prefix before it, and the remainder starting with it. -/
def takeUntil (c : Char) : List Char → List Char × List Char
  | [] => ([], [])
  | x :: xs =>
    if x = c then ([], x :: xs)
    else
      let p := takeUntil c xs
      (x :: p.1, p.2)

/-- Modelled from the spec: URL parsing is an external collaborator
(spec section 6, "standard URL resolution semantics").  An absolute URL
`scheme://host/path` is parsed into its components — the scheme runs up
to the first colon, the host up to the next slash, the path is the rest
(defaulting to a single slash, as the `href` of a parsed URL does) — and
anything else is rejected, modelling the `TypeError` thrown by
`new URL`. -/
def parseUrl (s : String) : Option Url :=
  let p := takeUntil ':' s.data
  match p.2 with
  | ':' :: '/' :: '/' :: rest =>
    if p.1 = [] then none
    else
      let q := takeUntil '/' rest
      if q.1 = [] then none
      else some { scheme := String.mk p.1, host := String.mk q.1,
                  path := if q.2 = [] then "/" else String.mk q.2 }
  | _ => none

/-- Serialization of a parsed URL, modelling the `href` property. -/
def urlHref (u : Url) : String := u.scheme ++ "://" ++ u.host ++ u.path

/-- The host component of a URL string, when it parses. -/
def urlHost (s : String) : Option String := (parseUrl s).map Url.host

/-- Modelled from the spec: `new URL (input, base) .href`, the standard
relative-URL resolution of the external collaborator (spec section 6),
restricted to the reference forms exercised here: an absolute reference
replaces the base entirely, and a root-relative reference (starting with
a slash) keeps the scheme and host of the base. -/
def urlResolve (input : String) (base : String) : String :=
  match parseUrl input with
  | some u => urlHref u
  | none =>
    match parseUrl base with
    | some b =>
      match input.data with
      | '/' :: _ => urlHref { b with path := input }
      | _ => urlHref b
    | none => input

/-- Embedding of `mergeUrls` (index.js lines 537-542): resolve the input
against the base when the input is a string, keep the base otherwise. -/
def mergeUrls (base : String) (input : Option String) : String :=
  match input with
  | some s => urlResolve s base
  | none => base

/-- Case-sensitive lookup of a (lower-cased, as Node delivers them)
response header, modelling JS property access on `message.headers`. -/
def headerLookup (name : String) (hs : Headers) : Option String :=
  (hs.find? (fun p => p.1 = name)).map Prod.snd

/-- Embedding of `redirectAnyRequest` (index.js lines 551-559): reissue
the original options and body to the Location header resolved against the
original URL. -/
def redirectAnyRequest (response : Response) : Request :=
  let location := headerLookup "location" response.message.headers
  let original := response.request
  let oldUrl := original.url
  let newUrl := mergeUrls oldUrl location
  { options := original.options, url := newUrl, body := original.body }

/-- Embedding of `redirectIfGetMethod` (index.js lines 568-575). -/
def redirectIfGetMethod (response : Response) : Request :=
  if (cleanRequestOptions response.request).method = "GET"
  then redirectAnyRequest response
  else response.request

/-- Embedding of `redirectUsingGetMethod` (index.js lines 588-595): force
the GET method and the module-level `emptyStream` body, then apply
`redirectAnyRequest` to a response carrying the modified request. -/
def redirectUsingGetMethod (response : Response) : Request :=
  let original := response.request
  let options := { original.options with method := some "GET" }
  let request : Request := { options := options, url := original.url, body := emptyStream }
  redirectAnyRequest { request := request, message := response.message }

/-- The `conditionHeaders` list (index.js lines 598-603). -/
def conditionHeaders : List String :=
  ["if-match", "if-modified-since", "if-none-match", "if-unmodified-since"]

/-- Embedding of `retryWithoutCondition` (index.js lines 612-624): for a
GET request, resend to the same URL with the conditional headers filtered
out; return the original request otherwise. -/
def retryWithoutCondition (response : Response) : Request :=
  let original := response.request
  let options := original.options
  let method := (cleanRequestOptions original).method
  let headers := options.headers.getD []
  let filteredHeaders := headers.filter
    (fun p => !(conditionHeaders.contains (strLower p.1)))
  let request : Request :=
    { options := { options with headers := some filteredHeaders },
      url := original.url, body := original.body }
  if method = "GET" then request else original

/-- Embedding of `matchStatus` (index.js lines 532-535): a status table is
an association list from status code to handler; the first matching entry
wins (JS object keys are unique), the default handler covers the rest. -/
def matchStatus {α : Type} (f : Response → α) (fs : List (Nat × (Response → α)))
    (res : Response) : α :=
  match fs.find? (fun p => p.1 = res.message.statusCode) with
  | some p => p.2 res
  | none => f res

/-- Embedding of `defaultRedirectionPolicy` (index.js lines 655-661). -/
def defaultRedirectionPolicy : Response → Request :=
  matchStatus Response.request
    [(301, redirectIfGetMethod),
     (302, redirectIfGetMethod),
     (303, redirectUsingGetMethod),
     (305, redirectAnyRequest),
     (307, redirectIfGetMethod)]

/-- Embedding of `aggressiveRedirectionPolicy` (index.js lines 681-688). -/
def aggressiveRedirectionPolicy : Response → Request :=
  matchStatus Response.request
    [(301, redirectAnyRequest),
     (302, redirectAnyRequest),
     (303, redirectUsingGetMethod),
     (304, retryWithoutCondition),
     (305, redirectAnyRequest),
     (307, redirectAnyRequest)]

/-- Embedding of `acceptStatus` (index.js line 756):
`matchStatus (reject) ({[code]: resolve})`, a Future of Response in both
channels becoming `Except Response Response`. -/
def acceptStatus (code : Nat) : Response → Except Response Response :=
  matchStatus Except.error [(code, Except.ok)]

/-- The two transport modules selectable by `getRequestModule`. -/
inductive Module where
  | httpsMod
  | httpMod
deriving DecidableEq, Repr

/-- Embedding of `getRequestModule` (index.js lines 289-295); the
argument is a protocol string including the trailing colon, as produced
by the `protocol` property of a parsed URL. -/
def getRequestModule (protocol : String) : Except String Module :=
  if protocol = "https:" then Except.ok Module.httpsMod
  else if protocol = "http:" then Except.ok Module.httpMod
  else Except.error ("Unsupported protocol '" ++ protocol ++ "'")

/-- Embedding of `sendRequest` (index.js lines 402-420), with the actual
round trip abstracted by the oracle `net` (covering the run of the body
Task and the transport exchange, spec section 6) and paired with the
number of network requests issued (0 or 1).  The URL is parsed, the
transport module is selected by protocol — failing before any network
activity when the scheme is unsupported — and on success the resulting
message is wrapped as `Response (request) (message)`. -/
def sendRequestCounted (net : Request → Except String Message)
    (request : Request) : Except String Response × Nat :=
  match parseUrl request.url with
  | none => (Except.error "Invalid URL", 0)
  | some loc =>
    match getRequestModule (loc.scheme ++ ":") with
    | Except.error e => (Except.error e, 0)
    | Except.ok _ =>
      match net request with
      | Except.error e => (Except.error e, 1)
      | Except.ok msg => (Except.ok { request := request, message := msg }, 1)

/-- The Request built by `retrieve` (index.js lines 432-434):
`Request ({headers}) (url) (emptyStream)`. -/
def retrieveRequest (url : String) (headers : Headers) : Request :=
  { options := { headers := some headers }, url := url, body := emptyStream }

/-- Embedding of `retrieve`: `sendRequest` applied to `retrieveRequest`. -/
def retrieve (net : Request → Except String Message) (url : String)
    (headers : Headers) : Except String Response × Nat :=
  sendRequestCounted net (retrieveRequest url headers)

/-- The recursive `followUp` of `followRedirectsWith` (index.js lines
712-728), with the remaining redirect budget as structural fuel: fuel 0
is the `max < 1` early return, and each recursive call decrements the
budget by one exactly as `followUp (max - 1)` does.  `seen` is the
history array (the source pushes the originating request before applying
the strategy, then scans the history for an equivalent request).  The
second component counts the requests issued. -/
def followUpFuel (net : Request → Except String Message)
    (strategy : Response → Request) :
    Nat → List Request → Response → Except String Response × Nat
  | 0, _, response => (Except.ok response, 0)
  | fuel + 1, seen, response =>
    let seen2 := seen ++ [response.request]
    let nextRequest := strategy response
    if seen2.any (fun r => requestsEquivalent r nextRequest) then
      (Except.ok response, 0)
    else
      match sendRequestCounted net nextRequest with
      | (Except.error e, n) => (Except.error ("After redirect: " ++ e), n)
      | (Except.ok newResponse, n) =>
        let rest := followUpFuel net strategy fuel seen2 newResponse
        (rest.1, n + rest.2)

/-- Embedding of `followRedirectsWith` (index.js lines 710-730): start
the recursion with an empty seen history; the numeric `max` argument is
an integer, and `Int.toNat` turns the `max < 1` guard into fuel 0. -/
def followRedirectsWith (net : Request → Except String Message)
    (strategy : Response → Request) (max : Int) (response : Response) :
    Except String Response × Nat :=
  followUpFuel net strategy max.toNat [] response

/-- Embedding of `followRedirects` (index.js line 738):
`followRedirectsWith (defaultRedirectionPolicy)`. -/
def followRedirects (net : Request → Except String Message) (max : Int)
    (response : Response) : Except String Response × Nat :=
  followRedirectsWith net defaultRedirectionPolicy max response

/-- Identifier of the `onData` callback of one `buffer` call. -/
def onDataId : Nat := 0

/-- Identifier of the `onError` callback of one `buffer` call. -/
def onErrorId : Nat := 1

/-- Identifier of the `onEnd` callback of one `buffer` call. -/
def onEndId : Nat := 2

/-- Identifier of the `rej` continuation handed to the computation by the
Future constructor.  It is a distinct function from `onError` (which
closes over it) and is never attached to the stream as a listener. -/
def rejId : Nat := 3

/-- The stream's listener list: pairs of event name and callback
identifier, in attachment order. -/
abbrev ListenerList := List (String × Nat)

/-- Node's `removeListener (event, f)`: removes at most one instance of
the exact (event, callback) pair; a pair that is not attached is left
alone. -/
def removeListener (event : String) (f : Nat) : ListenerList → ListenerList
  | [] => []
  | (e, g) :: rest =>
    if e = event ∧ g = f then rest
    else (e, g) :: removeListener event f rest

/-- The `removeListeners` closure of `buffer` (index.js lines 134-138):
it removes `('data', onData)`, `('error', rej)` and `('end', onEnd)` —
note that the callback it removes for the `'error'` event is `rej`, not
the `onError` wrapper that was attached. -/
def bufferRemoveListeners (ls : ListenerList) : ListenerList :=
  removeListener "end" onEndId
    (removeListener "error" rejId
      (removeListener "data" onDataId ls))

/-- The listeners attached by `buffer` (index.js lines 148-150):
`on ('data', onData)`, `once ('error', onError)`, `once ('end', onEnd)`. -/
def bufferInitialListeners : ListenerList :=
  [("data", onDataId), ("error", onErrorId), ("end", onEndId)]

/-- An event emitted by the source stream. -/
inductive StreamEvent where
  | dataEv (chunk : List Nat)
  | errorEv (e : Nat)
  | endEv
deriving DecidableEq, Repr

/-- Decidable equality of `Except` values, needed for settlements. -/
instance exceptDecEq {ε α : Type} [DecidableEq ε] [DecidableEq α] :
    DecidableEq (Except ε α) := fun x y =>
  match x, y with
  | Except.ok a, Except.ok b =>
    if h : a = b then Decidable.isTrue (by rw [h])
    else Decidable.isFalse (by intro hc; cases hc; exact h rfl)
  | Except.error a, Except.error b =>
    if h : a = b then Decidable.isTrue (by rw [h])
    else Decidable.isFalse (by intro hc; cases hc; exact h rfl)
  | Except.ok _, Except.error _ => Decidable.isFalse (by intro hc; cases hc)
  | Except.error _, Except.ok _ => Decidable.isFalse (by intro hc; cases hc)

/-- The observable state of one `buffer` call: the accumulated chunks,
the listeners of that call still attached to the stream, and the
settlement of the Future (`none` while pending; a Future settles at most
once, so a later settlement attempt leaves `settled` unchanged). -/
structure BufferState where
  chunks : List (List Nat)
  listeners : ListenerList
  settled : Option (Except Nat (List (List Nat)))
deriving DecidableEq, Repr

/-- The state of one `buffer` call right after its Future is forked. -/
def bufferStart : BufferState :=
  { chunks := [], listeners := bufferInitialListeners, settled := none }

/-- One stream event delivered to the listeners of a `buffer` call.  A
callback runs only while attached; a `once` listener is detached by the
emitter before it runs.  `onData` appends the chunk; `onEnd` runs
`removeListeners` and resolves with the chunks; `onError` runs
`removeListeners` and rejects (index.js lines 139-147). -/
def bufferStep (s : BufferState) : StreamEvent → BufferState
  | StreamEvent.dataEv c =>
    if ("data", onDataId) ∈ s.listeners
    then { s with chunks := s.chunks ++ [c] }
    else s
  | StreamEvent.errorEv e =>
    if ("error", onErrorId) ∈ s.listeners then
      let ls := removeListener "error" onErrorId s.listeners
      { s with listeners := bufferRemoveListeners ls,
               settled := if s.settled.isSome then s.settled
                          else some (Except.error e) }
    else s
  | StreamEvent.endEv =>
    if ("end", onEndId) ∈ s.listeners then
      let ls := removeListener "end" onEndId s.listeners
      { s with listeners := bufferRemoveListeners ls,
               settled := if s.settled.isSome then s.settled
                          else some (Except.ok s.chunks) }
    else s

/-- The state of one `buffer` call after the stream emitted the given
events in order. -/
def bufferRun (events : List StreamEvent) : BufferState :=
  events.foldl bufferStep bufferStart

/-- Cancelling the Future returned by `buffer`: the cancellation
procedure is the `removeListeners` closure (index.js line 151). -/
def bufferCancel (s : BufferState) : BufferState :=
  { s with listeners := bufferRemoveListeners s.listeners }

/-! Helper lemmas. -/

/-- A valid code point below the surrogate range survives `Char.ofNat`. -/
theorem charToNat_ofNat_of_lt (n : Nat) (h : n < 55296) :
    (Char.ofNat n).toNat = n := by
  have hv : n.isValidChar := Or.inl h
  rw [Char.ofNat, dif_pos hv]
  rfl

/-- ASCII upper-casing is idempotent. -/
theorem charUpper_idem (c : Char) : charUpper (charUpper c) = charUpper c := by
  unfold charUpper
  by_cases h : 97 ≤ c.toNat ∧ c.toNat ≤ 122
  · have hlt : c.toNat - 32 < 55296 := by omega
    have hv := charToNat_ofNat_of_lt (c.toNat - 32) hlt
    rw [if_pos h, if_neg]
    rw [hv]
    omega
  · rw [if_neg h, if_neg h]

/-- Upper-casing a string twice equals upper-casing it once. -/
theorem strUpper_idem (s : String) : strUpper (strUpper s) = strUpper s := by
  unfold strUpper
  apply congrArg String.mk
  simp only [List.map_map]
  refine List.map_congr_left (fun c _ => ?_)
  simp [Function.comp, charUpper_idem]

/-- Upper-casing preserves non-emptiness. -/
theorem strUpper_ne_empty (s : String) (h : s ≠ "") : strUpper s ≠ "" := by
  intro hc
  apply h
  apply String.ext
  have hdata : (strUpper s).data = [] := by rw [hc]
  unfold strUpper at hdata
  simpa using hdata

/-- The result of `a || b` with a non-empty fallback is non-empty. -/
theorem jsOrStr_ne_empty (a : Option String) (b : String) (hb : b ≠ "") :
    jsOrStr a b ≠ "" := by
  cases a with
  | none => simpa [jsOrStr] using hb
  | some s =>
    by_cases hs : s = ""
    · simp only [jsOrStr, hs, if_pos rfl]; exact hb
    · simp [jsOrStr, hs]

/-- A non-empty string survives the falsy-or defaulting unchanged. -/
theorem jsOrStr_of_ne_empty (s : String) (b : String) (h : s ≠ "") :
    jsOrStr (some s) b = s := by
  simp [jsOrStr, h]

/-- Re-applying `a || b` to its own result is the identity. -/
theorem jsOrNat_idem (a b : Option Nat) : jsOrNat (jsOrNat a b) b = jsOrNat a b := by
  have hb : jsOrNat b b = b := by
    cases b with
    | none => rfl
    | some m =>
      by_cases hm : m = 0
      · simp [jsOrNat, hm]
      · simp [jsOrNat, hm]
  cases a with
  | none => simpa [jsOrNat] using hb
  | some n =>
    by_cases hn : n = 0
    · simp only [jsOrNat, hn, if_pos rfl]; exact hb
    · simp [jsOrNat, hn]

/-- The defaulted `maxHeaderSize` is never zero. -/
theorem maxHeaderSize_ne_zero (a : Option Nat) :
    (jsOrNat a (some 16384)).getD 16384 ≠ 0 := by
  cases a with
  | none => simp [jsOrNat]
  | some n =>
    by_cases hn : n = 0
    · simp [jsOrNat, hn]
    · simp [jsOrNat, hn]

/-- A request is equivalent to itself under the redirect cycle check. -/
theorem requestsEquivalent_refl (r : Request) : requestsEquivalent r r = true := by
  simp [requestsEquivalent]

/-! Claim C8: acceptStatus tags a Response by channel. -/

/-- C8: for every status code `code` and every response `r`,
`acceptStatus (code) (r)` resolves with `r` itself when
`r.message.statusCode` equals `code` and otherwise rejects with `r`
itself — the Response value flows through either channel unchanged. -/
theorem acceptStatus_tags (code : Nat) (r : Response) :
    acceptStatus code r =
      (if r.message.statusCode = code then Except.ok r else Except.error r) := by
  unfold acceptStatus matchStatus
  by_cases h : r.message.statusCode = code
  · simp [List.find?, h]
  · have h2 : ¬(code = r.message.statusCode) := fun hc => h hc.symm
    simp [List.find?, h, h2]

/-! Claim C7: the two redirection policies dispatch by exact status code. -/

/-- C7: `defaultRedirectionPolicy` sends 301, 302 and 307 to
`redirectIfGetMethod`, 303 to `redirectUsingGetMethod`, 305 to
`redirectAnyRequest`, and every other status code (304 included) to
`Response.request`; `aggressiveRedirectionPolicy` sends 301, 302, 305 and
307 to `redirectAnyRequest`, 303 to `redirectUsingGetMethod`, 304 to
`retryWithoutCondition`, and every other status code to
`Response.request`. -/
theorem policy_dispatch (r : Response) :
    (r.message.statusCode = 301 → defaultRedirectionPolicy r = redirectIfGetMethod r) ∧
    (r.message.statusCode = 302 → defaultRedirectionPolicy r = redirectIfGetMethod r) ∧
    (r.message.statusCode = 303 → defaultRedirectionPolicy r = redirectUsingGetMethod r) ∧
    (r.message.statusCode = 305 → defaultRedirectionPolicy r = redirectAnyRequest r) ∧
    (r.message.statusCode = 307 → defaultRedirectionPolicy r = redirectIfGetMethod r) ∧
    (r.message.statusCode ∉ ([301, 302, 303, 305, 307] : List Nat) →
      defaultRedirectionPolicy r = Response.request r) ∧
    (r.message.statusCode = 301 → aggressiveRedirectionPolicy r = redirectAnyRequest r) ∧
    (r.message.statusCode = 302 → aggressiveRedirectionPolicy r = redirectAnyRequest r) ∧
    (r.message.statusCode = 303 → aggressiveRedirectionPolicy r = redirectUsingGetMethod r) ∧
    (r.message.statusCode = 304 → aggressiveRedirectionPolicy r = retryWithoutCondition r) ∧
    (r.message.statusCode = 305 → aggressiveRedirectionPolicy r = redirectAnyRequest r) ∧
    (r.message.statusCode = 307 → aggressiveRedirectionPolicy r = redirectAnyRequest r) ∧
    (r.message.statusCode ∉ ([301, 302, 303, 304, 305, 307] : List Nat) →
      aggressiveRedirectionPolicy r = Response.request r) := by
  refine ⟨fun h => ?_, fun h => ?_, fun h => ?_, fun h => ?_, fun h => ?_, fun h => ?_,
         fun h => ?_, fun h => ?_, fun h => ?_, fun h => ?_, fun h => ?_, fun h => ?_,
         fun h => ?_⟩
  · simp [defaultRedirectionPolicy, matchStatus, List.find?, h]
  · simp [defaultRedirectionPolicy, matchStatus, List.find?, h]
  · simp [defaultRedirectionPolicy, matchStatus, List.find?, h]
  · simp [defaultRedirectionPolicy, matchStatus, List.find?, h]
  · simp [defaultRedirectionPolicy, matchStatus, List.find?, h]
  · simp only [List.mem_cons, List.not_mem_nil, or_false, not_or] at h
    obtain ⟨h1, h2, h3, h5, h7⟩ := h
    simp [defaultRedirectionPolicy, matchStatus, List.find?,
      Ne.symm h1, Ne.symm h2, Ne.symm h3, Ne.symm h5, Ne.symm h7]
  · simp [aggressiveRedirectionPolicy, matchStatus, List.find?, h]
  · simp [aggressiveRedirectionPolicy, matchStatus, List.find?, h]
  · simp [aggressiveRedirectionPolicy, matchStatus, List.find?, h]
  · simp [aggressiveRedirectionPolicy, matchStatus, List.find?, h]
  · simp [aggressiveRedirectionPolicy, matchStatus, List.find?, h]
  · simp [aggressiveRedirectionPolicy, matchStatus, List.find?, h]
  · simp only [List.mem_cons, List.not_mem_nil, or_false, not_or] at h
    obtain ⟨h1, h2, h3, h4, h5, h7⟩ := h
    simp [aggressiveRedirectionPolicy, matchStatus, List.find?,
      Ne.symm h1, Ne.symm h2, Ne.symm h3, Ne.symm h4, Ne.symm h5, Ne.symm h7]

/-- A concrete 200 response, whose status code is in neither policy
table. -/
def resp200 : Response :=
  { request := { options := {}, url := "https://example.com/", body := emptyStream },
    message := { statusCode := 200 } }

/-- A concrete 301 response for witnessing the policy dispatch. -/
def resp301 : Response :=
  { request := { options := {}, url := "https://example.com/", body := emptyStream },
    message := { statusCode := 301,
                 headers := [("location", "https://example.com/next")] } }

/-- Witness for C7 at a concrete 301 response and at a concrete 200
response. -/
theorem policy_dispatch_witness :
    defaultRedirectionPolicy resp301 = redirectIfGetMethod resp301 ∧
    aggressiveRedirectionPolicy resp301 = redirectAnyRequest resp301 ∧
    defaultRedirectionPolicy resp200 = Response.request resp200 ∧
    aggressiveRedirectionPolicy resp200 = Response.request resp200 :=
  ⟨(policy_dispatch resp301).1 rfl,
   (policy_dispatch resp301).2.2.2.2.2.2.1 rfl,
   (policy_dispatch resp200).2.2.2.2.2.1 (by decide),
   (policy_dispatch resp200).2.2.2.2.2.2.2.2.2.2.2.2 (by decide)⟩

/-! Claim C3: the redirect cycle check's notion of equivalence. -/

/-- C3: two requests are judged equivalent by the redirect cycle check
exactly when their cleaned option sets are deeply equal, their URL
strings are equal and their body fields are the same Task reference; the
content of the bodies is never consulted (the judgement is invariant
under replacing the chunk contents behind either reference). -/
theorem requestsEquivalent_spec (l r : Request) :
    (requestsEquivalent l r = true ↔
      (cleanRequestOptions l = cleanRequestOptions r ∧ l.url = r.url ∧
        l.body.id = r.body.id)) ∧
    (∀ c₁ c₂ : List (List Nat),
      requestsEquivalent { l with body := { l.body with chunks := c₁ } }
                         { r with body := { r.body with chunks := c₂ } } =
        requestsEquivalent l r) := by
  constructor
  · simp [requestsEquivalent, and_assoc]
  · intro c₁ c₂
    rfl

/-- A concrete request for witnessing the equivalence judgement. -/
def reqW1 : Request :=
  { options := { headers := some [("accept", "text/plain")] },
    url := "https://example.com/a", body := { id := 7, chunks := [[1]] } }

/-- The same request with different body content behind the same Task
reference id. -/
def reqW2 : Request :=
  { options := { headers := some [("accept", "text/plain")] },
    url := "https://example.com/a", body := { id := 7, chunks := [[2]] } }

/-- Witness for C3: the equivalence judgement accepts two concrete
requests whose bodies share the reference while differing in content. -/
theorem requestsEquivalent_spec_witness :
    cleanRequestOptions reqW1 = cleanRequestOptions reqW2 ∧
      reqW1.url = reqW2.url ∧ reqW1.body.id = reqW2.body.id :=
  ((requestsEquivalent_spec reqW1 reqW2).1).mp (by decide)

/-! Claim C6: unsupported URL schemes fail before any network activity. -/

/-- Appending the protocol colon to distinct scheme names keeps them
distinct. -/
theorem appendColon_ne (s t : String) (h : s ≠ t) : s ++ ":" ≠ t ++ ":" := by
  intro hc
  apply h
  apply String.ext
  have hd := congrArg String.data hc
  rw [String.data_append, String.data_append] at hd
  exact List.append_left_injective _ hd

/-- C6: a request whose URL scheme is neither http nor https makes
`sendRequest` fail with `Unsupported protocol '<scheme>'`, with zero
requests issued and a result independent of the network oracle — no
network activity occurs. -/
theorem sendRequest_unsupported_scheme
    (net net' : Request → Except String Message) (request : Request) (u : Url)
    (hu : parseUrl request.url = some u)
    (h1 : u.scheme ≠ "http") (h2 : u.scheme ≠ "https") :
    sendRequestCounted net request =
      (Except.error ("Unsupported protocol '" ++ (u.scheme ++ ":") ++ "'"), 0) ∧
    sendRequestCounted net request = sendRequestCounted net' request := by
  have e1 : "https" ++ ":" = "https:" := rfl
  have e2 : "http" ++ ":" = "http:" := rfl
  have h2' : u.scheme ++ ":" ≠ "https:" := e1 ▸ appendColon_ne u.scheme "https" h2
  have h1' : u.scheme ++ ":" ≠ "http:" := e2 ▸ appendColon_ne u.scheme "http" h1
  have hmod : getRequestModule (u.scheme ++ ":") =
      Except.error ("Unsupported protocol '" ++ (u.scheme ++ ":") ++ "'") := by
    unfold getRequestModule
    rw [if_neg h2', if_neg h1']
  have hall : ∀ netx : Request → Except String Message,
      sendRequestCounted netx request =
        (Except.error ("Unsupported protocol '" ++ (u.scheme ++ ":") ++ "'"), 0) := by
    intro netx
    simp only [sendRequestCounted, hu, hmod]
  exact ⟨hall net, by rw [hall net, hall net']⟩

/-- A network oracle that always fails, for witnessing. -/
def netW1 : Request → Except String Message := fun _ => Except.error "no network"

/-- A network oracle that always answers 200, for witnessing. -/
def netW2 : Request → Except String Message := fun _ => Except.ok { statusCode := 200 }

/-- A request with an unsupported scheme, as in the repository's tests. -/
def ftpRequest : Request := { options := {}, url := "ftp://localhost", body := emptyStream }

/-- The parse of the ftp request's URL. -/
def ftpUrl : Url := { scheme := "ftp", host := "localhost", path := "/" }

/-- Witness for C6 at the ftp request, under two distinct oracles. -/
theorem sendRequest_unsupported_scheme_witness :
    sendRequestCounted netW1 ftpRequest =
      (Except.error ("Unsupported protocol '" ++ ("ftp" ++ ":") ++ "'"), 0) ∧
    sendRequestCounted netW1 ftpRequest = sendRequestCounted netW2 ftpRequest :=
  sendRequest_unsupported_scheme netW1 netW2 ftpRequest ftpUrl (by decide)
    (by decide) (by decide)

/-! Claim C1: the redirect engine is bounded by its budget. -/

/-- One `sendRequest` issues at most one request. -/
theorem sendRequestCounted_count_le_one (net : Request → Except String Message)
    (r : Request) : (sendRequestCounted net r).2 ≤ 1 := by
  unfold sendRequestCounted
  cases hp : parseUrl r.url with
  | none => simp
  | some loc =>
    cases hm : getRequestModule (loc.scheme ++ ":") with
    | error e => simp [hm]
    | ok m =>
      cases hn : net r with
      | error e => simp [hm, hn]
      | ok msg => simp [hm, hn]

/-- The redirect recursion issues at most as many requests as it has
budget. -/
theorem followUpFuel_count_le (net : Request → Except String Message)
    (strategy : Response → Request) :
    ∀ (fuel : Nat) (seen : List Request) (response : Response),
      (followUpFuel net strategy fuel seen response).2 ≤ fuel := by
  intro fuel
  induction fuel with
  | zero => intro seen response; simp [followUpFuel]
  | succ n ih =>
    intro seen response
    cases hcyc : (seen ++ [response.request]).any
        (fun r => requestsEquivalent r (strategy response)) with
    | true => simp [followUpFuel, hcyc]
    | false =>
      rcases hs : sendRequestCounted net (strategy response) with ⟨res, m⟩
      have hm : m ≤ 1 := by
        have hle := sendRequestCounted_count_le_one net (strategy response)
        rw [hs] at hle
        exact hle
      cases res with
      | error e =>
        simp [followUpFuel, hcyc, hs]
        omega
      | ok newResponse =>
        have hrest := ih (seen ++ [response.request]) newResponse
        simp [followUpFuel, hcyc, hs]
        omega

/-- C1: for every strategy, oracle and response, a redirect budget below
one (zero included) returns the given response unchanged with zero
requests issued, whatever the strategy and the oracle (neither is
consulted); and for every budget, the recursion terminates after at most
`max` request issuances. -/
theorem followRedirectsWith_bounded (net : Request → Except String Message)
    (strategy : Response → Request) (max : Int) (response : Response) :
    (max < 1 →
      ∀ (net' : Request → Except String Message) (strategy' : Response → Request),
        followRedirectsWith net' strategy' max response = (Except.ok response, 0)) ∧
    (followRedirectsWith net strategy max response).2 ≤ max.toNat := by
  constructor
  · intro h net' strategy'
    have hz : max.toNat = 0 := Int.toNat_of_nonpos (by omega)
    simp [followRedirectsWith, hz, followUpFuel]
  · exact followUpFuel_count_le net strategy max.toNat [] response

/-- A concrete 301 response for witnessing the redirect engine. -/
def respW : Response :=
  { request := { options := {}, url := "https://example.com/", body := emptyStream },
    message := { statusCode := 301,
                 headers := [("location", "https://example.com/next")] } }

/-- Witness for C1 at budget zero. -/
theorem followRedirectsWith_bounded_witness :
    followRedirectsWith netW2 defaultRedirectionPolicy 0 respW =
      (Except.ok respW, 0) ∧
    (followRedirectsWith netW2 defaultRedirectionPolicy 0 respW).2 ≤ (0 : Int).toNat :=
  ⟨(followRedirectsWith_bounded netW2 defaultRedirectionPolicy 0 respW).1
      (by decide) netW2 defaultRedirectionPolicy,
   (followRedirectsWith_bounded netW2 defaultRedirectionPolicy 0 respW).2⟩

/-! Claim C4: an immediate self-redirect terminates at once. -/

/-- C4: with budget at least one, a strategy returning the very request
the response carries terminates the engine: the originating request is
pushed onto the seen history before the strategy is applied, so the
cycle check matches it, the current response is resolved, and no further
request is issued. -/
theorem followRedirectsWith_self_redirect (net : Request → Except String Message)
    (strategy : Response → Request) (max : Int) (response : Response)
    (hmax : 1 ≤ max) (hstrat : strategy response = response.request) :
    followRedirectsWith net strategy max response = (Except.ok response, 0) := by
  unfold followRedirectsWith
  obtain ⟨n, hn⟩ : ∃ n, max.toNat = n + 1 := ⟨max.toNat - 1, by omega⟩
  rw [hn]
  simp [followUpFuel, hstrat, requestsEquivalent_refl]

/-- Witness for C4: the identity-on-request strategy at budget five. -/
theorem followRedirectsWith_self_redirect_witness :
    followRedirectsWith netW2 Response.request 5 respW = (Except.ok respW, 0) :=
  followRedirectsWith_self_redirect netW2 Response.request 5 respW (by decide) rfl

/-! Claim C9: GET-forced redirects share the module-level empty body. -/

/-- The first loop URL of the 303 scenario. -/
def urlA : String := "https://a.example/"

/-- The second loop URL of the 303 scenario. -/
def urlB : String := "https://b.example/x"

/-- A 303 message redirecting to the given location. -/
def see303 (loc : String) : Message :=
  { statusCode := 303, headers := [("location", loc)] }

/-- A network oracle serving a 303 loop between the two URLs. -/
def net303 : Request → Except String Message := fun r =>
  if r.url = urlA then Except.ok (see303 urlB)
  else if r.url = urlB then Except.ok (see303 urlA)
  else Except.error "unknown host"

/-- The response that starts the 303 loop scenario. -/
def resp303 : Response :=
  { request := retrieveRequest urlA [], message := see303 urlB }

/-- The response the engine resolves with in the 303 loop scenario: the
answer of the single GET issued to the second URL. -/
def resp303Result : Response :=
  { request := { options := { headers := some [], method := some "GET" },
                 url := urlB, body := emptyStream },
    message := see303 urlA }

/-- C9: every request synthesized by `redirectUsingGetMethod`, and the
request built by `retrieve`, carries the single module-level
`emptyStream` Task as its body; consequently two such synthesized
requests with equal cleaned options and equal URLs are judged equivalent
by the redirect cycle check, and a concrete loop of 303 redirects (A to
B and back to A) under the default policy terminates after a single
issued request despite a budget of ten. -/
theorem getForcedRedirects_detected :
    (∀ response : Response, (redirectUsingGetMethod response).body = emptyStream) ∧
    (∀ (url : String) (headers : Headers),
      (retrieveRequest url headers).body = emptyStream) ∧
    (∀ a b : Response,
      cleanRequestOptions (redirectUsingGetMethod a) =
          cleanRequestOptions (redirectUsingGetMethod b) →
        (redirectUsingGetMethod a).url = (redirectUsingGetMethod b).url →
        requestsEquivalent (redirectUsingGetMethod a) (redirectUsingGetMethod b) =
          true) ∧
    followRedirects net303 10 resp303 = (Except.ok resp303Result, 1) := by
  refine ⟨fun response => rfl, fun url headers => rfl, fun a b h1 h2 => ?_, by decide⟩
  have h3 : (redirectUsingGetMethod a).body.id = (redirectUsingGetMethod b).body.id := rfl
  simp [requestsEquivalent, h1, h2, h3]

/-- Witness for C9: the cycle check accepts the GET-forced requests
synthesized from two responses with the same originating request and
location. -/
theorem getForcedRedirects_detected_witness :
    requestsEquivalent (redirectUsingGetMethod resp303)
      (redirectUsingGetMethod resp303) = true :=
  getForcedRedirects_detected.2.2.1 resp303 resp303 rfl rfl

/-! Claim C2: cross-host redirects and confidential headers. -/

/-- The request of the repository's own cross-host redirect test: a GET
to example.com carrying a cookie header. -/
def cookieRequest : Request :=
  { options := { headers := some [("cookie", "yum")] },
    url := "https://example.com", body := emptyStream }

/-- A 301 response redirecting the cookie request to a different host. -/
def crossHostResponse : Response :=
  { request := cookieRequest,
    message := { statusCode := 301,
                 headers := [("location", "https://elsewhere.com/")] } }

/-- C2 evaluated at the failing input: although the resolved host
(elsewhere.com) differs from the original host (example.com),
`redirectAnyRequest` reissues the original options object unchanged,
cookie header included — no confidential header is dropped, contrary to
the repository's README and test suite. -/
theorem redirectAnyRequest_keeps_confidential_headers :
    urlHost cookieRequest.url = some "example.com" ∧
    urlHost (redirectAnyRequest crossHostResponse).url = some "elsewhere.com" ∧
    (redirectAnyRequest crossHostResponse).options.headers =
      some [("cookie", "yum")] ∧
    (redirectAnyRequest crossHostResponse).options = cookieRequest.options := by
  decide

/-! Claim C5: listeners left on the stream by buffer. -/

/-- C5 evaluated at the failing inputs: after an `end` settlement, and
after cancellation, the `once ('error', onError)` listener registered by
`buffer` is still attached, because `removeListeners` detaches
`('error', rej)` — a pairing that was never attached — instead of
`('error', onError)`.  Only the `error` settlement path, where the
emitter itself detaches the fired once listener, leaves the stream
clean. -/
theorem buffer_leaves_error_listener :
    (bufferRun [StreamEvent.endEv]).settled = some (Except.ok []) ∧
    (bufferRun [StreamEvent.endEv]).listeners = [("error", onErrorId)] ∧
    (bufferCancel bufferStart).listeners = [("error", onErrorId)] ∧
    (bufferRun [StreamEvent.errorEv 42]).listeners = [] := by
  decide

/-! Claim C10: cleanRequestOptions is idempotent. -/

/-- Using a cleaned options object as the options of a new Request: each
of its thirteen fields is present, carrying the value the cleaning
produced. -/
def cleanToOptions (c : CleanOptions) : RequestOptions :=
  { agent := c.agent
    createConnection := c.createConnection
    defaultPort := c.defaultPort
    family := c.family
    headers := some c.headers
    insecureHTTPParser := some c.insecureHTTPParser
    localAddress := c.localAddress
    lookup := some c.lookup
    maxHeaderSize := some c.maxHeaderSize
    method := some c.method
    setHost := some c.setHost
    socketPath := c.socketPath
    timeout := c.timeout }

/-- The strict-equality test against `true` is the identity on booleans. -/
theorem decide_some_eq_true (b : Bool) : decide (some b = some true) = b := by
  cases b <;> rfl

/-- The strict-inequality test against `false` is the identity on
booleans. -/
theorem decide_some_ne_false (b : Bool) : decide (some b ≠ some false) = b := by
  cases b <;> rfl

/-- A nonzero number survives the falsy-or defaulting unchanged. -/
theorem jsOrNat_some_of_ne_zero (n : Nat) (b : Option Nat) (h : n ≠ 0) :
    jsOrNat (some n) b = some n := by
  simp [jsOrNat, h]

/-- C10: cleaning the request built from the already-cleaned options of
any request yields exactly the same cleaned options, whatever url and
body accompany them. -/
theorem cleanRequestOptions_idem (r : Request) (u : String) (b : TaskRef) :
    cleanRequestOptions
        { options := cleanToOptions (cleanRequestOptions r), url := u, body := b } =
      cleanRequestOptions r := by
  have hdp := jsOrNat_idem r.options.defaultPort (agentDefaultPort r.options.agent)
  have hmx : jsOrNat (some ((jsOrNat r.options.maxHeaderSize (some 16384)).getD 16384))
        (some 16384) =
      some ((jsOrNat r.options.maxHeaderSize (some 16384)).getD 16384) :=
    jsOrNat_some_of_ne_zero _ _ (maxHeaderSize_ne_zero r.options.maxHeaderSize)
  have hmth : jsOrStr (some (strUpper (jsOrStr r.options.method "GET"))) "GET" =
      strUpper (jsOrStr r.options.method "GET") :=
    jsOrStr_of_ne_empty _ _
      (strUpper_ne_empty _ (jsOrStr_ne_empty r.options.method "GET" (by decide)))
  simp [cleanRequestOptions, cleanToOptions, hdp, hmx, hmth,
    decide_some_eq_true, decide_some_ne_false, strUpper_idem]

end FlutureNode
